import Mathlib

/-!
Shallow embedding of src/evm/vm.py: the EVM interpreter core of this
repository (Memory, Stack, CodeStream, GasMeter, Message, execution
frames, `apply_message` and `execute_vm`), together with theorems that
settle the specification claims about it.

Machine integers are modelled as `Nat`/`Int`; Python exceptions are
modelled by explicit error values, and wherever the source mutates an
object before raising, the embedding returns the mutated state alongside
the raised error.  External collaborators (the storage capability, the
opcode logic and gas-cost tables, the validation helpers) are not part
of src/evm/vm.py; those a claim needs are modelled from the spec and
marked as such in their doc comments.
-/

deriving instance DecidableEq for Except

set_option maxRecDepth 8192

namespace Evm

/-- Opcode byte constant STOP = 0x00 (spec section 6). -/
def STOP : Nat := 0

/-- Opcode byte constant PUSH1 = 0x60 (spec section 6). -/
def PUSH1 : Nat := 96

/-- Opcode byte constant PUSH32 = 0x7f (spec section 6). -/
def PUSH32 : Nat := 127

/-- Opcode byte constant RETURN = 0xf3 (spec section 6). -/
def RETURN : Nat := 243

/-- Opcode byte constant SUICIDE = 0xff (spec section 6). -/
def SUICIDE : Nat := 255

/-- The VMError family (evm.exceptions, outside src/).  Modelled from
the spec: section 7 lists the members; `InsufficientFunds` is prescribed
there as a member of the family even though src/evm/vm.py raises the
name without importing it. -/
inductive VMErr where
  | OutOfGas
  | InsufficientStack
  | FullStack
  | StackDepthLimit
  | InvalidOpcode
  | InvalidJumpDestination
  | InsufficientFunds
deriving DecidableEq, Repr

/-- Exceptions src/evm/vm.py can raise: a `VMError` subclass, a
`ValidationError` (evm.validation), or a plain `ValueError` (raised by
`register_account_for_deletion` and by `io.BytesIO.seek` on a negative
target). -/
inductive Err where
  | vm (e : VMErr)
  | validation
  | valueError
deriving DecidableEq, Repr

/-- Canonical addresses are 20-byte strings (spec section 3). -/
abbrev Addr := List Nat

/-- The largest uint256 value, written as a literal so that concrete
runs evaluate by kernel reduction; `uint256_max_eq` checks it against
`2 ^ 256 - 1`. -/
def UINT256_MAX : Int :=
  115792089237316195423570985008687907853269984665640564039457584007913129639935

/-- Modelled from the spec: `validate_uint256` (evm.validation, outside
src/) checks that a value is an integer in `[0, 2 ^ 256 - 1]`. -/
def validate_uint256 (n : Int) : Bool :=
  decide (0 ≤ n) && decide (n ≤ UINT256_MAX)

/-- EVM Memory (src/evm/vm.py lines 57-100).  Only the operations the
claims need are embedded. -/
structure Memory where
  bytes : List Nat
deriving DecidableEq, Repr

/-- `Memory.read` (src/evm/vm.py lines 96-100): the Python byte slice
`self.bytes[start_position : start_position + size]`, which silently
truncates at the end of memory and never raises. -/
def Memory.read (m : Memory) (start_position size : Nat) : List Nat :=
  (m.bytes.drop start_position).take size

/-- EVM Stack (src/evm/vm.py lines 103-137): the top of the stack is the
end of `values`. -/
structure Stack where
  values : List (List Nat)
deriving DecidableEq, Repr

/-- `Stack.push` (src/evm/vm.py lines 116-126): the `FullStack` check
comes first, then `validate_lte(len(value), maximum=32)` (a
`ValidationError`), then the append.  `validate_is_bytes` is a type
check, discharged by the embedding's types. -/
def Stack.push (s : Stack) (value : List Nat) : Except Err Stack :=
  if 1024 < s.values.length + 1 then .error (.vm .FullStack)
  else if value.length ≤ 32 then .ok ⟨s.values ++ [value]⟩
  else .error .validation

/-- `Stack.pop` (src/evm/vm.py lines 128-137): raises
`InsufficientStack` on an empty stack, otherwise removes and returns the
last element. -/
def Stack.pop (s : Stack) : Except Err (List Nat × Stack) :=
  match s.values.getLast? with
  | none => .error (.vm .InsufficientStack)
  | some v => .ok (v, ⟨s.values.dropLast⟩)

/-- CodeStream (src/evm/vm.py lines 201-276): an immutable byte sequence
with a cursor.  Every seek in the source goes through the `pc` setter,
which clamps from above, so `pos ≤ code.length` holds throughout. -/
structure CodeStream where
  code : List Nat
  pos : Nat
deriving DecidableEq, Repr

/-- `CodeStream.next` (src/evm/vm.py lines 223-231): `read(1)` yields
the byte at the cursor and advances; past the end it yields `b''`, in
which case `next` returns STOP without moving the cursor. -/
def CodeStream.next (cs : CodeStream) : Nat × CodeStream :=
  match cs.code.get? cs.pos with
  | some b => (b, { cs with pos := cs.pos + 1 })
  | none => (STOP, cs)

/-- The `pc` setter (src/evm/vm.py lines 243-245):
`self.stream.seek(min(value, len(self)))`.  `io.BytesIO.seek` raises
`ValueError` on a negative target, so only the upper bound is
clamped. -/
def CodeStream.pc_set (cs : CodeStream) (value : Int) : Except Err CodeStream :=
  if min value (cs.code.length : Int) < 0 then .error .valueError
  else .ok { cs with pos := (min value (cs.code.length : Int)).toNat }

/-- Recursion kernel of `CodeStream.is_valid_opcode` (src/evm/vm.py
lines 258-276), with an explicit fuel argument as termination measure:
every recursive call is at a strictly smaller position, so fuel
`position + 1` always suffices (`is_valid_opcode_fuel_irrel`).  For
`position ≤ code.length` the scanned window
`reversed(code[max(0, position - 32) : position])` places the byte at
offset `off` at index `position - 1 - off`; a byte passes unless it is a
PUSH1..PUSH32 whose immediate region covers `position` and which is
itself a valid opcode. -/
def is_valid_opcode_fuel (code : List Nat) : Nat → Nat → Bool
  | 0, _ => true
  | fuel + 1, position =>
    (List.range (min position 32)).all fun off =>
      if code.getD (position - 1 - off) 0 < PUSH1 then true
      else if PUSH32 < code.getD (position - 1 - off) 0 then true
      else if 1 + code.getD (position - 1 - off) 0 - PUSH1 ≤ off then true
      else !(is_valid_opcode_fuel code fuel (position - 1 - off))

/-- `CodeStream.is_valid_opcode` (src/evm/vm.py lines 258-276): decides
whether the byte at `position` is an executable instruction rather than
the immediate operand of a preceding PUSH.  The scoped seek restores the
cursor, so the result depends only on the code bytes. -/
def CodeStream.is_valid_opcode (cs : CodeStream) (position : Nat) : Bool :=
  is_valid_opcode_fuel cs.code (position + 1) position

/-- GasMeter (src/evm/vm.py lines 279-364): an immutable `start_gas`
and three append-only ledgers. -/
structure GasMeter where
  start_gas : Nat
  deductions : List Int
  returns : List Int
  refunds : List Int
deriving DecidableEq, Repr

/-- `GasMeter.gas_used` (src/evm/vm.py lines 350-352): the sum of the
deductions plus the sum of the returns. -/
def GasMeter.gas_used (m : GasMeter) : Int :=
  m.deductions.sum + m.returns.sum

/-- `GasMeter.gas_refunded` (src/evm/vm.py lines 354-356). -/
def GasMeter.gas_refunded (m : GasMeter) : Int :=
  m.refunds.sum

/-- `GasMeter.gas_remaining` (src/evm/vm.py lines 358-360). -/
def GasMeter.gas_remaining (m : GasMeter) : Int :=
  (m.start_gas : Int) - m.gas_used

/-- `GasMeter.is_out_of_gas` (src/evm/vm.py lines 362-364). -/
def GasMeter.is_out_of_gas (m : GasMeter) : Bool :=
  decide (m.gas_remaining < 0)

/-- `GasMeter.consume_gas` (src/evm/vm.py lines 298-318): a
`ValidationError` from `validate_uint256` is converted to `OutOfGas`; an
already negative balance raises `OutOfGas`; otherwise the amount is
appended to `deductions`, with no check on the resulting balance. -/
def GasMeter.consume_gas (m : GasMeter) (amount : Int) : Except Err GasMeter :=
  if validate_uint256 amount = false then .error (.vm .OutOfGas)
  else if m.is_out_of_gas then .error (.vm .OutOfGas)
  else .ok { m with deductions := m.deductions ++ [amount] }

/-- `GasMeter.return_gas` (src/evm/vm.py lines 320-331): validates and
appends to `returns`. -/
def GasMeter.return_gas (m : GasMeter) (amount : Int) : Except Err GasMeter :=
  if validate_uint256 amount = false then .error .validation
  else .ok { m with returns := m.returns ++ [amount] }

/-- `GasMeter.refund_gas` (src/evm/vm.py lines 333-344): validates and
appends to `refunds`. -/
def GasMeter.refund_gas (m : GasMeter) (amount : Int) : Except Err GasMeter :=
  if validate_uint256 amount = false then .error .validation
  else .ok { m with refunds := m.refunds ++ [amount] }

/-- Message (src/evm/vm.py lines 160-198): all fields are validated on
construction; the embedding carries the validated values. -/
structure Message where
  gas : Nat
  gas_price : Nat
  origin : Addr
  account : Addr
  sender : Addr
  value : Nat
  data : List Nat
  depth : Nat
deriving DecidableEq, Repr

/-- Modelled from the spec: the storage capability (spec section 6)
consumed by the core.  Maps are association lists read through the
newest entry; `snapshot()` hands back the whole value and
`revert(token)` restores it, which realises the section 8 round-trip
property exactly. -/
structure Storage where
  balances : List (Addr × Nat)
  codes : List (Addr × List Nat)
  slots : List (Addr × List (Nat × Nat))
deriving DecidableEq, Repr

/-- Modelled from the spec: `get_balance(addr) → u256`, zero for unknown
accounts. -/
def Storage.get_balance (s : Storage) (addr : Addr) : Nat :=
  match s.balances.find? (fun p => p.1 == addr) with
  | some p => p.2
  | none => 0

/-- Modelled from the spec: `set_balance(addr, u256)`. -/
def Storage.set_balance (s : Storage) (addr : Addr) (v : Nat) : Storage :=
  { s with balances := (addr, v) :: s.balances }

/-- Modelled from the spec: `get_code(addr) → bytes`, empty for unknown
accounts. -/
def Storage.get_code (s : Storage) (addr : Addr) : List Nat :=
  match s.codes.find? (fun p => p.1 == addr) with
  | some p => p.2
  | none => []

/-- Modelled from the spec: `delete_code(addr)`. -/
def Storage.delete_code (s : Storage) (addr : Addr) : Storage :=
  { s with codes := (addr, []) :: s.codes }

/-- Modelled from the spec: `delete_storage(addr)`. -/
def Storage.delete_storage (s : Storage) (addr : Addr) : Storage :=
  { s with slots := (addr, []) :: s.slots }

/-- State (src/evm/vm.py lines 398-416): the per-frame tuple of memory,
stack, code stream and gas meter. -/
structure State where
  memory : Memory
  stack : Stack
  code : CodeStream
  gas_meter : GasMeter
deriving DecidableEq, Repr

/-- ExecutionEnvironment (src/evm/vm.py lines 450-565): a frame binds a
message to its state and owns its sub-frames, pending logs, pending
account deletions, output and captured error.  The type is a nested
inductive because sub-frames are frames. -/
inductive Frame where
  | mk (message : Message) (state : State) (sub_environments : List Frame)
      (logs : List (Addr × List (List Nat) × List Nat))
      (accounts_to_delete : List (Addr × Addr))
      (output : List Nat) (error : Option VMErr) : Frame

/-- Field accessor for `Frame.message`. -/
def Frame.message : Frame → Message
  | .mk m _ _ _ _ _ _ => m

/-- Field accessor for `Frame.state`. -/
def Frame.state : Frame → State
  | .mk _ st _ _ _ _ _ => st

/-- Field accessor for `Frame.sub_environments`. -/
def Frame.sub_environments : Frame → List Frame
  | .mk _ _ subs _ _ _ _ => subs

/-- Field accessor for `Frame.logs`. -/
def Frame.logs : Frame → List (Addr × List (List Nat) × List Nat)
  | .mk _ _ _ ls _ _ _ => ls

/-- Field accessor for `Frame.accounts_to_delete`. -/
def Frame.accounts_to_delete : Frame → List (Addr × Addr)
  | .mk _ _ _ _ dels _ _ => dels

/-- Field accessor for `Frame.output`. -/
def Frame.output : Frame → List Nat
  | .mk _ _ _ _ _ out _ => out

/-- Field accessor for `Frame.error`. -/
def Frame.error : Frame → Option VMErr
  | .mk _ _ _ _ _ _ err => err

/-- Replace the frame's code stream (the cursor advances as the
interpreter fetches). -/
def Frame.withCode : Frame → CodeStream → Frame
  | .mk m st subs ls dels out err, cs =>
    .mk m { st with code := cs } subs ls dels out err

/-- Replace the frame's gas meter (the meter is rebuilt as deductions
are appended). -/
def Frame.withMeter : Frame → GasMeter → Frame
  | .mk m st subs ls dels out err, gm =>
    .mk m { st with gas_meter := gm } subs ls dels out err

/-- Record a captured VMError on the frame
(`environment.error = err`). -/
def Frame.withError : Frame → VMErr → Frame
  | .mk m st subs ls dels out _, e =>
    .mk m st subs ls dels out (some e)

/-- Append a finished sub-frame (`self.sub_environments.append(...)`,
src/evm/vm.py line 492). -/
def Frame.appendSub : Frame → Frame → Frame
  | .mk m st subs ls dels out err, sub =>
    .mk m st (subs ++ [sub]) ls dels out err

/-- `ExecutionEnvironment.register_account_for_deletion` (src/evm/vm.py
lines 530-538): validates that the beneficiary is canonical (20 bytes,
modelled from the spec), raises `ValueError` when the frame's account is
already registered, and otherwise records `account → beneficiary`. -/
def Frame.register_account_for_deletion : Frame → Addr → Except Err Frame
  | .mk m st subs ls dels out err, beneficiary =>
    if beneficiary.length ≠ 20 then .error .validation
    else if dels.any (fun p => p.1 == m.account) then .error .valueError
    else .ok (.mk m st subs ls (dels ++ [(m.account, beneficiary)]) out err)

/-- `ExecutionEnvironment.add_log_entry` (src/evm/vm.py lines
540-541). -/
def Frame.add_log_entry : Frame → Addr → List (List Nat) → List Nat → Frame
  | .mk m st subs ls dels out err, account, topics, data =>
    .mk m st subs (ls ++ [(account, topics, data)]) dels out err

/-- An opcode logic function: it receives the frame and the shared
storage and returns the (possibly raised) exception together with the
state as mutated up to the point of the raise — Python mutations made
before an exception persist on the objects. -/
abbrev OpFn := Frame → Storage → Option Err × Frame × Storage

/-- Modelled from the spec: the external collaborators of the core
(spec section 6) — `validate_opcode` from evm.validation, the opcode
logic table `OPCODE_LOGIC_FUNCTIONS` and the base gas-cost table
`OPCODE_GAS_COSTS`.  The claims quantify over all of them. -/
structure Ext where
  validOpcode : Nat → Bool
  logicFn : Nat → OpFn
  gasCost : Nat → Int

/-- `ExecutionEnvironment.get_opcode_fn` combined with
`GasMeter.wrap_opcode_fn` (src/evm/vm.py lines 366-377 and 511-525):
an invalid opcode byte routes to the `invalid_op` sentinel, which raises
`InvalidOpcode` (modelled from the spec); otherwise the wrapper consumes
the base gas cost, raises `OutOfGas` when the meter is exhausted after
the deduction, and then invokes the table's logic function. -/
def dispatch (ext : Ext) (opcode : Nat) : OpFn := fun frame storage =>
  if ext.validOpcode opcode then
    match frame.state.gas_meter.consume_gas (ext.gasCost opcode) with
    | .error e => (some e, frame, storage)
    | .ok m2 =>
      let frame2 := frame.withMeter m2
      if m2.is_out_of_gas then (some (.vm .OutOfGas), frame2, storage)
      else ext.logicFn opcode frame2 storage
  else (some (.vm .InvalidOpcode), frame, storage)

/-- `BREAK_OPCODES` (src/evm/vm.py lines 568-572). -/
def BREAK_OPCODES : List Nat := [RETURN, STOP, SUICIDE]

/-- The `for opcode in environment.state.code` loop of `execute_vm`
(src/evm/vm.py lines 615-628), with explicit fuel because the code
stream iterator never terminates on its own: fetch, dispatch, capture a
raised `VMError` into `frame.error` and break, let other exceptions
propagate, break after a terminal opcode. -/
def runLoop (ext : Ext) : Nat → Frame → Storage → Option (Option Err × Frame × Storage)
  | 0, _, _ => none
  | fuel + 1, frame, storage =>
    let fetch := frame.state.code.next
    let frame1 := frame.withCode fetch.2
    match dispatch ext fetch.1 frame1 storage with
    | (some (.vm e), frame2, storage2) => some (none, frame2.withError e, storage2)
    | (some .validation, frame2, storage2) => some (some .validation, frame2, storage2)
    | (some .valueError, frame2, storage2) => some (some .valueError, frame2, storage2)
    | (none, frame2, storage2) =>
      if fetch.1 ∈ BREAK_OPCODES then some (none, frame2, storage2)
      else runLoop ext fuel frame2 storage2

/-- The success branch of `ExecutionEnvironment.__exit__` (src/evm/vm.py
lines 554-565): for each registered `(account, beneficiary)` pair,
delete the account's storage and code, zero its balance and credit it to
the beneficiary. -/
def commitDeletions : List (Addr × Addr) → Storage → Storage
  | [], s => s
  | (account, beneficiary) :: rest, s =>
    let s1 := (s.delete_storage account).delete_code account
    let account_balance := s1.get_balance account
    let s2 := s1.set_balance account 0
    let beneficiary_balance := s2.get_balance beneficiary
    commitDeletions rest (s2.set_balance beneficiary (beneficiary_balance + account_balance))

/-- `ExecutionEnvironment.__exit__` (src/evm/vm.py lines 549-565): a
propagating `VMError` is recorded on the frame and suppressed without
committing anything; any other exception propagates; a clean exit
commits the pending account deletions. -/
def frameExit (frame : Frame) (storage : Storage) (exc : Option Err) :
    Option Err × Frame × Storage :=
  match exc with
  | some (.vm e) => (none, frame.withError e, storage)
  | some .validation => (some .validation, frame, storage)
  | some .valueError => (some .valueError, frame, storage)
  | none => (none, frame, commitDeletions frame.accounts_to_delete storage)

/-- `execute_vm` (src/evm/vm.py lines 604-630): run the interpreter loop
inside the frame's scoped context; the context's `__exit__` receives
whatever exception escapes the loop body.  The result is `none` when the
fuel runs out, otherwise the propagating exception (if any), the frame
and the storage. -/
def execute_vm (ext : Ext) (fuel : Nat) (frame : Frame) (storage : Storage) :
    Option (Option Err × Frame × Storage) :=
  match runLoop ext fuel frame storage with
  | none => none
  | some (exc, f, s) => some (frameExit f s exc)

/-- `EVM.setup_environment` plus `ExecutionEnvironment.__init__`
(src/evm/vm.py lines 468-481 and 641-647): load the callee's code from
storage and build a fresh frame whose gas meter starts at
`message.gas`. -/
def setup_environment (storage : Storage) (msg : Message) : Frame :=
  .mk msg
    { memory := ⟨[]⟩
      stack := ⟨[]⟩
      code := ⟨storage.get_code msg.account, 0⟩
      gas_meter := ⟨msg.gas, [], [], []⟩ }
    [] [] [] [] none

/-- Tail of `apply_message` (src/evm/vm.py lines 596-601): build the
frame from the post-transfer storage, run `execute_vm`, and revert to
the snapshot when the resulting frame's error is set. -/
def finishMessage (ext : Ext) (fuel : Nat) (storage1 : Storage) (msg : Message)
    (snapshot : Storage) : Option (Except Err Frame × Storage) :=
  match execute_vm ext fuel (setup_environment storage1 msg) storage1 with
  | none => none
  | some (some err, _, storage2) => some (.error err, storage2)
  | some (none, frame, storage2) =>
    if frame.error.isSome then some (.ok frame, snapshot)
    else some (.ok frame, storage2)

/-- `apply_message` (src/evm/vm.py lines 575-601): snapshot, depth
check, optional value transfer (`InsufficientFunds` when the sender
balance is short), then `finishMessage`.  The first component of a
returned pair is the raised exception or the returned frame; the second
is the final storage. -/
def apply_message (ext : Ext) (fuel : Nat) (storage : Storage) (msg : Message) :
    Option (Except Err Frame × Storage) :=
  if 1024 ≤ msg.depth then some (.error (.vm .StackDepthLimit), storage)
  else if msg.value ≠ 0 then
    if storage.get_balance msg.sender < msg.value then
      some (.error (.vm .InsufficientFunds), storage)
    else
      finishMessage ext fuel
        ((storage.set_balance msg.sender (storage.get_balance msg.sender - msg.value)).set_balance
          msg.account (storage.get_balance msg.account + msg.value))
        msg storage
  else finishMessage ext fuel storage msg storage

/-- `ExecutionEnvironment.apply_message` (src/evm/vm.py lines 490-493):
delegate to the module-level `apply_message` and append the resulting
sub-frame.  When `apply_message` raises (for example `StackDepthLimit`),
the append never runs and the exception propagates to the caller. -/
def Frame.apply_message (ext : Ext) (fuel : Nat) (parent : Frame) (storage : Storage)
    (msg : Message) : Option (Except Err Frame × Frame × Storage) :=
  match Evm.apply_message ext fuel storage msg with
  | none => none
  | some (.error e, s2) => some (.error e, parent, s2)
  | some (.ok sub, s2) => some (.ok sub, parent.appendSub sub, s2)

/-- A push or pop request, for quantifying over operation sequences on a
stack (spec section 8, invariant 1). -/
inductive Op where
  | pushOp (w : List Nat)
  | popOp
deriving DecidableEq, Repr

/-- Run a sequence of push/pop requests against a stack, counting the
successful pushes and pops; a raised exception leaves the stack object
unchanged, exactly as in the source where both failures raise before
mutating. -/
def runStack : List Op → Stack → Stack × Nat × Nat
  | [], s => (s, 0, 0)
  | .pushOp w :: rest, s =>
    match s.push w with
    | .ok s2 =>
      let t := runStack rest s2
      (t.1, t.2.1 + 1, t.2.2)
    | .error _ => runStack rest s
  | .popOp :: rest, s =>
    match s.pop with
    | .ok v =>
      let t := runStack rest v.2
      (t.1, t.2.1, t.2.2 + 1)
    | .error _ => runStack rest s

/-- A gas-meter request, for quantifying over call sequences on a
`GasMeter` (spec section 4.4). -/
inductive GOp where
  | consume (amount : Int)
  | ret (amount : Int)
  | refund (amount : Int)
deriving DecidableEq, Repr

/-- One gas-meter request: the meter after the call (unchanged when the
call raises) and the successfully consumed, returned and refunded
amounts. -/
def gasStep (m : GasMeter) : GOp → GasMeter × Int × Int × Int
  | .consume a =>
    match m.consume_gas a with
    | .ok m2 => (m2, a, 0, 0)
    | .error _ => (m, 0, 0, 0)
  | .ret a =>
    match m.return_gas a with
    | .ok m2 => (m2, 0, a, 0)
    | .error _ => (m, 0, 0, 0)
  | .refund a =>
    match m.refund_gas a with
    | .ok m2 => (m2, 0, 0, a)
    | .error _ => (m, 0, 0, 0)

/-- Run a sequence of gas-meter requests, accumulating the total
successfully consumed, returned and refunded amounts. -/
def gasTrace (m : GasMeter) : List GOp → GasMeter × Int × Int × Int
  | [] => (m, 0, 0, 0)
  | op :: rest =>
    let r := gasStep m op
    let t := gasTrace r.1 rest
    (t.1, r.2.1 + t.2.1, r.2.2.1 + t.2.2.1, r.2.2.2 + t.2.2.2)

/-- A trivial external collaborator set: every opcode is valid, costs no
gas and its logic does nothing. -/
def extTriv : Ext :=
  { validOpcode := fun _ => true
    logicFn := fun _ => fun f s => (none, f, s)
    gasCost := fun _ => 0 }

/-- An external collaborator set in which `validate_opcode` rejects
every byte, so every dispatch routes to the `invalid_op` sentinel. -/
def extInvalid : Ext :=
  { validOpcode := fun _ => false
    logicFn := fun _ => fun f s => (none, f, s)
    gasCost := fun _ => 0 }

/-- A 20-byte account address for concrete runs. -/
def accAddrC : Addr := List.replicate 20 1

/-- A 20-byte beneficiary address for concrete runs. -/
def benAddrC : Addr := List.replicate 20 2

/-- An external collaborator set whose single opcode logic registers the
frame's account for deletion (via the frame's own
`register_account_for_deletion`) and then raises `OutOfGas`, as a
SUICIDE-style logic that runs out of gas mid-way may: the registration
persists on the frame because Python mutations made before a raise
survive the exception. -/
def extSuicideOOG : Ext :=
  { validOpcode := fun _ => true
    logicFn := fun _ => fun f s =>
      match f.register_account_for_deletion benAddrC with
      | .ok f2 => (some (.vm .OutOfGas), f2, s)
      | .error e => (some e, f, s)
    gasCost := fun _ => 0 }

/-- Concrete storage for the scope-guard counterexample: the account
holds 7, the beneficiary 3, and the account's code is the single byte
`0x07`. -/
def storCex : Storage :=
  { balances := [(accAddrC, 7), (benAddrC, 3)]
    codes := [(accAddrC, [7])]
    slots := [] }

/-- Concrete zero-value message addressed to `accAddrC` at depth 0 with
no gas. -/
def msgCex : Message :=
  { gas := 0, gas_price := 0, origin := accAddrC, account := accAddrC
    sender := accAddrC, value := 0, data := [], depth := 0 }

/-- The frame built for `msgCex` over `storCex`. -/
def frameCex : Frame := setup_environment storCex msgCex

/-- Concrete storage for the revert witness: one funded account. -/
def storW2 : Storage := { balances := [([1], 5)], codes := [], slots := [] }

/-- Concrete zero-value message with empty callee code, run under
`extInvalid` so the first fetched opcode fails `InvalidOpcode`. -/
def msgW2 : Message :=
  { gas := 0, gas_price := 0, origin := [], account := [], sender := []
    value := 0, data := [], depth := 0 }

/-- The errored frame that `apply_message extInvalid 1 storW2 msgW2`
returns: the empty code stream fetches STOP, dispatch routes it to the
invalid-op sentinel, and the loop captures `InvalidOpcode`. -/
def frameW2 : Frame :=
  .mk msgW2 ⟨⟨[]⟩, ⟨[]⟩, ⟨[], 0⟩, ⟨0, [], [], []⟩⟩ [] [] [] [] (some .InvalidOpcode)

/-- A parent frame at depth 1023 for the depth-limit counterexample. -/
def msgParentC : Message :=
  { gas := 0, gas_price := 0, origin := accAddrC, account := accAddrC
    sender := accAddrC, value := 0, data := [], depth := 1023 }

/-- The parent frame itself (fresh, no sub-environments). -/
def parentCex : Frame := setup_environment storCex msgParentC

/-- The child message the parent spawns: depth 1024. -/
def msgChildC : Message :=
  { gas := 0, gas_price := 0, origin := accAddrC, account := accAddrC
    sender := accAddrC, value := 0, data := [], depth := 1024 }

/-- Concrete message for the insufficient-funds witness: value 5 from a
sender holding 3. -/
def msgFundsW : Message :=
  { gas := 0, gas_price := 0, origin := [1], account := [2], sender := [1]
    value := 5, data := [], depth := 0 }

/-- Concrete storage for the insufficient-funds witness. -/
def storFundsW : Storage := { balances := [([1], 3)], codes := [], slots := [] }

/-- Concrete frame and storage for the scope-guard witness: code is a
single STOP and nothing is registered for deletion. -/
def msgStopW : Message :=
  { gas := 0, gas_price := 0, origin := [1], account := [3], sender := [1]
    value := 0, data := [], depth := 0 }

/-- Storage for the scope-guard witness: the callee's code is `0x00`. -/
def storStopW : Storage := { balances := [], codes := [([3], [0])], slots := [] }

/-- The frame built for `msgStopW` over `storStopW`. -/
def frameStopW : Frame := setup_environment storStopW msgStopW

/-- The frame that `execute_vm extTriv 1 frameStopW storStopW` ends
with: the STOP byte was fetched and its zero gas cost deducted. -/
def frameStopW2 : Frame :=
  .mk msgStopW ⟨⟨[]⟩, ⟨[]⟩, ⟨[0], 1⟩, ⟨0, [0], [], []⟩⟩ [] [] [] [] none

/-- Operation sequence for the stack witness: two pushes, three pops
(the third pop fails on the empty stack). -/
def stackOpsW : List Op := [.pushOp [1], .pushOp [2, 3], .popOp, .popOp, .popOp]

/-- Operation sequence for the gas-meter witness: consume 3, return 2,
refund 1, then a consume that fails because the meter is already
negative. -/
def gasOpsW : List GOp := [.consume 3, .ret 2, .refund 1, .consume 7]

/-- Sanity check of the `UINT256_MAX` literal against `2 ^ 256 - 1`. -/
theorem uint256_max_eq : UINT256_MAX = 2 ^ 256 - 1 := by
  norm_num [UINT256_MAX]

/-- C10: `Memory.read(start, size)` is total and never raises: it
returns exactly the bytes in `[start, min (start + size) L)` — the
slice `(take (start + size)).drop start` — and its length is
`min size (L - start)`, so the result is silently shorter than `size`
when `start + size` exceeds the memory length and empty when
`start ≥ L`, with no error and no zero padding. -/
theorem memory_read_total (m : Memory) (start_position size : Nat) :
    m.read start_position size
      = (m.bytes.take (start_position + size)).drop start_position
    ∧ (m.read start_position size).length
      = min size (m.bytes.length - start_position) := by
  constructor
  · rw [Memory.read, List.drop_take]
    congr 1
    omega
  · simp [Memory.read]

/-- C6: `consume_gas(amount)` raises `OutOfGas` exactly when, at entry,
the meter is already out of gas or the amount fails uint256 validation
(the validation failure is converted to `OutOfGas`, not surfaced as
`ValidationError`); in every other case it succeeds by appending the
amount to `deductions`, with no check on the resulting balance. -/
theorem consume_gas_spec (m : GasMeter) (a : Int) :
    (m.consume_gas a = .error (.vm .OutOfGas)
      ↔ (m.is_out_of_gas = true ∨ validate_uint256 a = false))
    ∧ (m.is_out_of_gas = false → validate_uint256 a = true →
        m.consume_gas a = .ok { m with deductions := m.deductions ++ [a] }) := by
  cases hv : validate_uint256 a <;> cases hg : m.is_out_of_gas <;>
    simp [GasMeter.consume_gas, hv, hg]

/-- Witness for C6: a meter holding 5 gas accepts a deduction of 10 —
the call succeeds even though the resulting balance is negative;
exhaustion is only detected at the next check. -/
theorem consume_gas_spec_witness :
    GasMeter.is_out_of_gas ⟨5, [], [], []⟩ = false
    ∧ validate_uint256 10 = true
    ∧ GasMeter.consume_gas ⟨5, [], [], []⟩ 10 = .ok ⟨5, [10], [], []⟩
    ∧ GasMeter.gas_remaining ⟨5, [10], [], []⟩ < 0 :=
  ⟨by decide, by decide,
    (consume_gas_spec ⟨5, [], [], []⟩ 10).2 (by decide) (by decide),
    by decide⟩

/-- Counterexample for C9: the claim says assigning any negative value
to `pc` clamps it to 0, but the setter only applies
`min(value, len(self))` and `io.BytesIO.seek` raises `ValueError` on a
negative target, so `pc = -1` on an empty stream raises instead of
landing at 0. -/
theorem pc_setter_negative_cex :
    CodeStream.pc_set ⟨[], 0⟩ (-1) = .error .valueError
    ∧ CodeStream.pc_set ⟨[], 0⟩ (-1) ≠ .ok ⟨[], 0⟩ := by
  exact ⟨by decide, by decide⟩

/-- C9 as amended: for non-negative `v` the `pc` setter clamps the
cursor to `[0, length]` (any `v` greater than the length lands at the
length), and a fetch at `pc = length` yields STOP; a negative `v`
raises `ValueError` instead of clamping to 0
(`pc_setter_negative_cex`). -/
theorem pc_setter_clamps_nonneg (cs cs2 : CodeStream) (v : Int) (hv : 0 ≤ v)
    (h2 : cs2.pos = cs2.code.length) :
    cs.pc_set v = .ok ⟨cs.code, min v.toNat cs.code.length⟩
    ∧ cs2.next = (STOP, cs2) := by
  constructor
  · have h3 : (min v ((cs.code.length : Nat) : Int)).toNat
        = min v.toNat cs.code.length := by
      rcases le_total v ((cs.code.length : Nat) : Int) with h | h
      · rw [min_eq_left h, min_eq_left (by omega : v.toNat ≤ cs.code.length)]
      · rw [min_eq_right h, min_eq_right (by omega : cs.code.length ≤ v.toNat)]
        omega
    have hmin : ¬ (min v ((cs.code.length : Nat) : Int) < 0) := by
      rcases le_total v ((cs.code.length : Nat) : Int) with h | h
      · rw [min_eq_left h]; omega
      · rw [min_eq_right h]; omega
    rw [CodeStream.pc_set, if_neg hmin, h3]
  · have hnone : cs2.code.get? cs2.pos = none :=
      List.get?_eq_none.mpr (by omega)
    rw [CodeStream.next, hnone]

/-- Witness for C9 as amended: assigning 7 on a 2-byte stream lands at
2, and fetching at the end of a 1-byte stream yields STOP. -/
theorem pc_setter_clamps_nonneg_witness :
    CodeStream.pc_set ⟨[5, 6], 0⟩ 7 = .ok ⟨[5, 6], min (Int.toNat 7) 2⟩
    ∧ CodeStream.next ⟨[7], 1⟩ = (STOP, ⟨[7], 1⟩) :=
  pc_setter_clamps_nonneg ⟨[5, 6], 0⟩ ⟨[7], 1⟩ 7 (by decide) (by decide)

/-- A successful push appended the word and required room below the
1024 limit. -/
theorem push_ok_shape {s : Stack} {w : List Nat} {s2 : Stack}
    (h : s.push w = .ok s2) :
    s2.values = s.values ++ [w] ∧ s.values.length + 1 ≤ 1024 := by
  rw [Stack.push] at h
  split at h
  · cases h
  · split at h
    · cases h
      exact ⟨rfl, by omega⟩
    · cases h

/-- A successful pop dropped the last element of a nonempty stack. -/
theorem pop_ok_shape {s : Stack} {r : List Nat × Stack}
    (h : s.pop = .ok r) :
    r.2.values = s.values.dropLast ∧ s.values ≠ [] := by
  rw [Stack.pop] at h
  cases hl : s.values.getLast? with
  | none => rw [hl] at h; cases h
  | some v =>
    rw [hl] at h
    cases h
    refine ⟨rfl, ?_⟩
    intro hnil
    rw [hnil] at hl
    cases hl

/-- Length bookkeeping for any sequence of push/pop requests: the
final length plus the successful pops equals the initial length plus
the successful pushes, and the length never exceeds 1024. -/
theorem runStack_counts (ops : List Op) :
    ∀ s : Stack,
      (runStack ops s).1.values.length + (runStack ops s).2.2
        = s.values.length + (runStack ops s).2.1
      ∧ (s.values.length ≤ 1024 → (runStack ops s).1.values.length ≤ 1024) := by
  induction ops with
  | nil =>
    intro s
    simp [runStack]
  | cons op rest ih =>
    intro s
    cases op with
    | pushOp w =>
      cases hp : s.push w with
      | ok s2 =>
        obtain ⟨hv, hle⟩ := push_ok_shape hp
        have hlen : s2.values.length = s.values.length + 1 := by
          rw [hv, List.length_append, List.length_singleton]
        obtain ⟨ih1, ih2⟩ := ih s2
        have h2 : s2.values.length ≤ 1024 := by omega
        simp only [runStack, hp]
        exact ⟨by omega, fun _ => ih2 h2⟩
      | error e =>
        obtain ⟨ih1, ih2⟩ := ih s
        simp only [runStack, hp]
        exact ⟨ih1, ih2⟩
    | popOp =>
      cases hp : s.pop with
      | ok r =>
        obtain ⟨hv, hne⟩ := pop_ok_shape hp
        have hlen : r.2.values.length = s.values.length - 1 := by
          rw [hv, List.length_dropLast]
        have hpos : 0 < s.values.length := List.length_pos.mpr hne
        obtain ⟨ih1, ih2⟩ := ih r.2
        simp only [runStack, hp]
        exact ⟨by omega, fun h => ih2 (by omega)⟩
      | error e =>
        obtain ⟨ih1, ih2⟩ := ih s
        simp only [runStack, hp]
        exact ⟨ih1, ih2⟩

/-- C8: over any sequence of push/pop requests on a fresh stack the
length equals successful pushes minus successful pops and stays within
`[0, 1024]`; a valid word pushes onto a stack of length 1023 (the
1024th word), pushing onto a full stack fails `FullStack`, popping an
empty stack fails `InsufficientStack`, and both failures leave the
stack unchanged (the exceptions are raised before any mutation, so the
run keeps the old stack). -/
theorem stack_push_pop_spec (ops : List Op) (s t : Stack) (w v : List Nat)
    (hw : w.length ≤ 32) (hs : s.values.length = 1023)
    (ht : t.values.length = 1024) :
    (runStack ops ⟨[]⟩).1.values.length + (runStack ops ⟨[]⟩).2.2
      = (runStack ops ⟨[]⟩).2.1
    ∧ (runStack ops ⟨[]⟩).1.values.length ≤ 1024
    ∧ s.push w = .ok ⟨s.values ++ [w]⟩
    ∧ t.push v = .error (.vm .FullStack)
    ∧ runStack [.pushOp v] t = (t, 0, 0)
    ∧ Stack.pop ⟨[]⟩ = .error (.vm .InsufficientStack)
    ∧ runStack [.popOp] ⟨[]⟩ = (⟨[]⟩, 0, 0) := by
  have hfull : t.push v = .error (.vm .FullStack) := by
    rw [Stack.push, if_pos (by omega)]
  obtain ⟨h1, h2⟩ := runStack_counts ops ⟨[]⟩
  refine ⟨?_, h2 (by simp), ?_, hfull, ?_, rfl, rfl⟩
  · simpa using h1
  · rw [Stack.push, if_neg (by omega), if_pos hw]
  · simp only [runStack, hfull]

/-- Witness for C8: runs the sequence push, push, pop, pop, pop on a
fresh stack (2 successful pushes, 2 successful pops, the last pop
fails), pushes the 1024th word onto a 1023-deep stack, and exercises
the two failure cases; the extra equalities evaluate the run. -/
theorem stack_push_pop_spec_witness :
    ((runStack stackOpsW ⟨[]⟩).1.values.length + (runStack stackOpsW ⟨[]⟩).2.2
      = (runStack stackOpsW ⟨[]⟩).2.1
    ∧ (runStack stackOpsW ⟨[]⟩).1.values.length ≤ 1024
    ∧ Stack.push ⟨List.replicate 1023 []⟩ []
        = .ok ⟨List.replicate 1023 [] ++ [[]]⟩
    ∧ Stack.push ⟨List.replicate 1024 []⟩ [] = .error (.vm .FullStack)
    ∧ runStack [.pushOp []] ⟨List.replicate 1024 []⟩
        = (⟨List.replicate 1024 []⟩, 0, 0)
    ∧ Stack.pop ⟨[]⟩ = .error (.vm .InsufficientStack)
    ∧ runStack [.popOp] ⟨[]⟩ = (⟨[]⟩, 0, 0))
    ∧ runStack stackOpsW ⟨[]⟩ = (⟨[]⟩, 2, 2) :=
  ⟨stack_push_pop_spec stackOpsW ⟨List.replicate 1023 []⟩
      ⟨List.replicate 1024 []⟩ [] [] (by simp) (by simp) (by simp),
    by decide⟩

/-- A successful `consume_gas` appended the amount to `deductions`. -/
theorem consume_ok_shape {m : GasMeter} {a : Int} {m2 : GasMeter}
    (h : m.consume_gas a = .ok m2) :
    m2 = { m with deductions := m.deductions ++ [a] } := by
  rw [GasMeter.consume_gas] at h
  split at h
  · cases h
  · split at h
    · cases h
    · cases h
      rfl

/-- A successful `return_gas` appended the amount to `returns`. -/
theorem return_ok_shape {m : GasMeter} {a : Int} {m2 : GasMeter}
    (h : m.return_gas a = .ok m2) :
    m2 = { m with returns := m.returns ++ [a] } := by
  rw [GasMeter.return_gas] at h
  split at h
  · cases h
  · cases h
    rfl

/-- A successful `refund_gas` appended the amount to `refunds`. -/
theorem refund_ok_shape {m : GasMeter} {a : Int} {m2 : GasMeter}
    (h : m.refund_gas a = .ok m2) :
    m2 = { m with refunds := m.refunds ++ [a] } := by
  rw [GasMeter.refund_gas] at h
  split at h
  · cases h
  · cases h
    rfl

/-- Ledger bookkeeping for one gas-meter request. -/
theorem gasStep_inv (m : GasMeter) (op : GOp) :
    (gasStep m op).1.start_gas = m.start_gas
    ∧ (gasStep m op).1.gas_used
      = m.gas_used + (gasStep m op).2.1 + (gasStep m op).2.2.1
    ∧ (gasStep m op).1.gas_refunded = m.gas_refunded + (gasStep m op).2.2.2 := by
  cases op with
  | consume a =>
    cases hc : m.consume_gas a with
    | ok m2 =>
      rw [consume_ok_shape hc] at hc
      simp [gasStep, hc, GasMeter.gas_used, GasMeter.gas_refunded]
      ring
    | error e => simp [gasStep, hc]
  | ret a =>
    cases hc : m.return_gas a with
    | ok m2 =>
      rw [return_ok_shape hc] at hc
      simp [gasStep, hc, GasMeter.gas_used, GasMeter.gas_refunded]
      ring
    | error e => simp [gasStep, hc]
  | refund a =>
    cases hc : m.refund_gas a with
    | ok m2 =>
      rw [refund_ok_shape hc] at hc
      simp [gasStep, hc, GasMeter.gas_used, GasMeter.gas_refunded]
    | error e => simp [gasStep, hc]

/-- Ledger bookkeeping for any sequence of gas-meter requests:
`start_gas` never changes, `gas_used` grows by the successfully
consumed plus the successfully returned amounts, and `gas_refunded`
grows by the successfully refunded amounts. -/
theorem gasTrace_inv (ops : List GOp) :
    ∀ m : GasMeter,
      (gasTrace m ops).1.start_gas = m.start_gas
      ∧ (gasTrace m ops).1.gas_used
        = m.gas_used + (gasTrace m ops).2.1 + (gasTrace m ops).2.2.1
      ∧ (gasTrace m ops).1.gas_refunded
        = m.gas_refunded + (gasTrace m ops).2.2.2 := by
  induction ops with
  | nil =>
    intro m
    simp [gasTrace]
  | cons op rest ih =>
    intro m
    obtain ⟨hs, hu, hr⟩ := gasStep_inv m op
    obtain ⟨ihs, ihu, ihr⟩ := ih (gasStep m op).1
    simp only [gasTrace]
    refine ⟨by rw [ihs, hs], ?_, ?_⟩
    · rw [ihu, hu]
      ring
    · rw [ihr, hr]
      ring

/-- C7: over any sequence of consume/return/refund calls on a fresh
meter, `gas_used` equals the successfully consumed plus the
successfully returned amounts (so `return_gas` increases `gas_used`),
`gas_remaining` equals `start_gas` minus `gas_used`, `gas_refunded`
equals the successfully refunded amounts, and `is_out_of_gas` holds
exactly when `gas_remaining` is negative; the last two conjuncts show a
further valid `return_gas` adding `a` to `gas_used`. -/
theorem gas_meter_accounting (ops : List GOp) (g : Nat) (a : Int)
    (ha : validate_uint256 a = true) :
    (gasTrace ⟨g, [], [], []⟩ ops).1.gas_used
      = (gasTrace ⟨g, [], [], []⟩ ops).2.1 + (gasTrace ⟨g, [], [], []⟩ ops).2.2.1
    ∧ (gasTrace ⟨g, [], [], []⟩ ops).1.gas_remaining
      = (g : Int) - (gasTrace ⟨g, [], [], []⟩ ops).1.gas_used
    ∧ (gasTrace ⟨g, [], [], []⟩ ops).1.gas_refunded
      = (gasTrace ⟨g, [], [], []⟩ ops).2.2.2
    ∧ ((gasTrace ⟨g, [], [], []⟩ ops).1.is_out_of_gas = true
        ↔ (gasTrace ⟨g, [], [], []⟩ ops).1.gas_remaining < 0)
    ∧ (gasTrace ⟨g, [], [], []⟩ ops).1.return_gas a
        = .ok { (gasTrace ⟨g, [], [], []⟩ ops).1 with
            returns := (gasTrace ⟨g, [], [], []⟩ ops).1.returns ++ [a] }
    ∧ GasMeter.gas_used
        { (gasTrace ⟨g, [], [], []⟩ ops).1 with
          returns := (gasTrace ⟨g, [], [], []⟩ ops).1.returns ++ [a] }
      = (gasTrace ⟨g, [], [], []⟩ ops).1.gas_used + a := by
  obtain ⟨hs, hu, hr⟩ := gasTrace_inv ops ⟨g, [], [], []⟩
  have h0 : GasMeter.gas_used ⟨g, [], [], []⟩ = 0 := by
    simp [GasMeter.gas_used]
  have h0r : GasMeter.gas_refunded ⟨g, [], [], []⟩ = 0 := by
    simp [GasMeter.gas_refunded]
  refine ⟨?_, ?_, ?_, ?_, ?_, ?_⟩
  · rw [hu, h0]
    ring
  · rw [GasMeter.gas_remaining, hs]
  · rw [hr, h0r]
    ring
  · simp [GasMeter.is_out_of_gas]
  · rw [GasMeter.return_gas, if_neg (by simp [ha])]
  · simp [GasMeter.gas_used]
    ring

/-- Witness for C7: start gas 4, consume 3, return 2, refund 1, then a
failing consume; the extra equality evaluates the final meter, whose
`gas_used` is 5 and `gas_remaining` is negative. -/
theorem gas_meter_accounting_witness :
    ((gasTrace ⟨4, [], [], []⟩ gasOpsW).1.gas_used
      = (gasTrace ⟨4, [], [], []⟩ gasOpsW).2.1
        + (gasTrace ⟨4, [], [], []⟩ gasOpsW).2.2.1
    ∧ (gasTrace ⟨4, [], [], []⟩ gasOpsW).1.gas_remaining
      = ((4 : Nat) : Int) - (gasTrace ⟨4, [], [], []⟩ gasOpsW).1.gas_used
    ∧ (gasTrace ⟨4, [], [], []⟩ gasOpsW).1.gas_refunded
      = (gasTrace ⟨4, [], [], []⟩ gasOpsW).2.2.2
    ∧ ((gasTrace ⟨4, [], [], []⟩ gasOpsW).1.is_out_of_gas = true
        ↔ (gasTrace ⟨4, [], [], []⟩ gasOpsW).1.gas_remaining < 0)
    ∧ (gasTrace ⟨4, [], [], []⟩ gasOpsW).1.return_gas 2
        = .ok { (gasTrace ⟨4, [], [], []⟩ gasOpsW).1 with
            returns := (gasTrace ⟨4, [], [], []⟩ gasOpsW).1.returns ++ [2] }
    ∧ GasMeter.gas_used
        { (gasTrace ⟨4, [], [], []⟩ gasOpsW).1 with
          returns := (gasTrace ⟨4, [], [], []⟩ gasOpsW).1.returns ++ [2] }
      = (gasTrace ⟨4, [], [], []⟩ gasOpsW).1.gas_used + 2)
    ∧ gasTrace ⟨4, [], [], []⟩ gasOpsW = (⟨4, [3], [2], [1]⟩, 3, 2, 1) :=
  ⟨gas_meter_accounting gasOpsW 4 2 (by decide), by decide⟩

/-- When `finishMessage` returns a frame whose error is set, the final
storage is the snapshot passed in. -/
theorem finish_reverts {ext : Ext} {fuel : Nat} {storage1 : Storage}
    {msg : Message} {snap : Storage} {frame : Frame} {storage2 : Storage}
    (h : finishMessage ext fuel storage1 msg snap = some (.ok frame, storage2))
    (he : frame.error.isSome = true) :
    storage2 = snap := by
  rw [finishMessage] at h
  split at h
  · cases h
  · simp at h
  · split at h
    · simp at h
      exact h.2.symm
    · simp at h
      obtain ⟨h1, -⟩ := h
      rw [← h1] at he
      simp_all

/-- C2: whenever `apply_message` returns a frame with `error` set, the
storage after the call equals the storage before it: the snapshot is
taken before any mutation (in particular before the value transfer) and
the revert restores it wholesale, for every choice of external opcode
logic. -/
theorem apply_message_reverts_on_error (ext : Ext) (fuel : Nat)
    (storage : Storage) (msg : Message) (frame : Frame) (storage2 : Storage)
    (h : apply_message ext fuel storage msg = some (.ok frame, storage2))
    (he : frame.error.isSome = true) :
    storage2 = storage := by
  rw [apply_message] at h
  split at h
  · simp at h
  · split at h
    · split at h
      · simp at h
      · exact finish_reverts h he
    · exact finish_reverts h he

/-- Witness for C2: under a logic table whose `validate_opcode` rejects
everything, the empty-code callee captures `InvalidOpcode` and
`apply_message` hands back the untouched storage. -/
theorem apply_message_reverts_on_error_witness :
    (apply_message extInvalid 1 storW2 msgW2 = some (.ok frameW2, storW2)
    ∧ Frame.error frameW2 = some .InvalidOpcode)
    ∧ storW2 = storW2 :=
  ⟨⟨by rfl, rfl⟩,
    apply_message_reverts_on_error extInvalid 1 storW2 msgW2 frameW2 storW2
      (by rfl) (by rfl)⟩

/-- C3 as amended: a message at depth 1024 or more fails
`StackDepthLimit` inside `apply_message` before any frame is built or
any opcode executes (the storage comes back untouched); invoked through
a parent frame's `apply_message`, the exception propagates and nothing
is appended to the parent's `sub_environments`. -/
theorem depth_limit_pre_execution (ext : Ext) (fuel : Nat) (storage : Storage)
    (msg : Message) (parent : Frame) (hd : 1024 ≤ msg.depth) :
    apply_message ext fuel storage msg
      = some (.error (.vm .StackDepthLimit), storage)
    ∧ Frame.apply_message ext fuel parent storage msg
      = some (.error (.vm .StackDepthLimit), parent, storage) := by
  have h1 : apply_message ext fuel storage msg
      = some (.error (.vm .StackDepthLimit), storage) := by
    rw [apply_message, if_pos hd]
  refine ⟨h1, ?_⟩
  rw [Frame.apply_message, h1]

/-- Witness for C3 as amended: concrete child message at depth 1024
under a parent frame at depth 1023. -/
theorem depth_limit_pre_execution_witness :
    apply_message extTriv 1 storCex msgChildC
      = some (.error (.vm .StackDepthLimit), storCex)
    ∧ Frame.apply_message extTriv 1 parentCex storCex msgChildC
      = some (.error (.vm .StackDepthLimit), parentCex, storCex) :=
  depth_limit_pre_execution extTriv 1 storCex msgChildC parentCex (by decide)

/-- Counterexample for C3: the claim says that applying a depth-1024
child through `frame.apply_message` leaves the parent with one
`sub_environments` entry whose error is `StackDepthLimit`.  In the code,
module-level `apply_message` raises `StackDepthLimit` before any child
frame exists, so `ExecutionEnvironment.apply_message` never reaches its
append: the concrete call below propagates the exception and the parent
comes back with zero sub-environments. -/
theorem depth_limit_no_sub_environment_cex :
    (Frame.apply_message extTriv 1 parentCex storCex msgChildC).map
        (fun r => (r.1, r.2.1.sub_environments.length, r.2.2))
      = some (.error (.vm .StackDepthLimit), 0, storCex)
    ∧ Frame.sub_environments parentCex = [] :=
  ⟨rfl, rfl⟩

/-- Balance reads go through the newest entry: reading the address just
written yields the written value. -/
theorem get_balance_set_same (s : Storage) (a : Addr) (v : Nat) :
    (s.set_balance a v).get_balance a = v := by
  rw [Storage.set_balance, Storage.get_balance]
  rw [List.find?_cons_of_pos _ (by simp)]

/-- Balance reads of other addresses are unaffected by a write. -/
theorem get_balance_set_ne (s : Storage) (a b : Addr) (v : Nat)
    (hne : a ≠ b) :
    (s.set_balance a v).get_balance b = s.get_balance b := by
  rw [Storage.set_balance, Storage.get_balance, Storage.get_balance]
  rw [List.find?_cons_of_neg _ (by simp [hne])]

/-- C4: for a message with positive value (and depth below the limit,
which is checked first), `apply_message` fails `InsufficientFunds` —
a member of the VMError family — exactly when the sender balance is
short, leaving the storage untouched; otherwise it moves the value from
the sender to the callee and only then builds the frame and executes
(`finishMessage` receives the post-transfer storage). -/
theorem apply_message_value_transfer (ext : Ext) (fuel : Nat)
    (storage : Storage) (msg : Message) (hdepth : msg.depth < 1024)
    (hval : 0 < msg.value) :
    (storage.get_balance msg.sender < msg.value →
      apply_message ext fuel storage msg
        = some (.error (.vm .InsufficientFunds), storage))
    ∧ (msg.value ≤ storage.get_balance msg.sender →
        apply_message ext fuel storage msg
          = finishMessage ext fuel
              ((storage.set_balance msg.sender
                  (storage.get_balance msg.sender - msg.value)).set_balance
                msg.account (storage.get_balance msg.account + msg.value))
              msg storage
        ∧ (msg.sender ≠ msg.account →
            ((storage.set_balance msg.sender
                (storage.get_balance msg.sender - msg.value)).set_balance
              msg.account
              (storage.get_balance msg.account + msg.value)).get_balance
                msg.account
              = storage.get_balance msg.account + msg.value
            ∧ ((storage.set_balance msg.sender
                  (storage.get_balance msg.sender - msg.value)).set_balance
                msg.account
                (storage.get_balance msg.account + msg.value)).get_balance
                  msg.sender
              = storage.get_balance msg.sender - msg.value)) := by
  constructor
  · intro hlt
    rw [apply_message, if_neg (by omega), if_pos (by omega), if_pos hlt]
  · intro hge
    constructor
    · rw [apply_message, if_neg (by omega), if_pos (by omega),
        if_neg (by omega)]
    · intro hne
      constructor
      · exact get_balance_set_same _ msg.account _
      · rw [get_balance_set_ne _ msg.account msg.sender _ (Ne.symm hne)]
        exact get_balance_set_same _ msg.sender _

/-- Witness for C4: value 5 from a sender holding 3 fails
`InsufficientFunds` with the storage untouched. -/
theorem apply_message_value_transfer_witness :
    apply_message extTriv 1 storFundsW msgFundsW
      = some (.error (.vm .InsufficientFunds), storFundsW) :=
  (apply_message_value_transfer extTriv 1 storFundsW msgFundsW
      (by decide) (by decide)).1 (by decide)

/-- The interpreter loop never lets a `VMError` escape: it captures
every one into `frame.error` and breaks, so the exception component of
its result is never a `VMError`. -/
theorem runLoop_no_vm (ext : Ext) :
    ∀ (fuel : Nat) (frame : Frame) (storage : Storage)
      (out : Option Err × Frame × Storage),
      runLoop ext fuel frame storage = some out →
      ∀ e : VMErr, out.1 ≠ some (.vm e) := by
  intro fuel
  induction fuel with
  | zero =>
    intro f s out h e
    simp [runLoop] at h
  | succ n ih =>
    intro f s out h e
    rw [runLoop] at h
    split at h
    · cases h
      simp
    · cases h
      simp
    · cases h
      simp
    · split at h
      · cases h
        simp
      · exact ih _ _ _ h e

/-- C1 as amended: the scope guard commits the pending account
deletions whenever the scope body finishes without a propagating
exception — including every run in which `execute_vm` captured a
VMError into `frame.error`, because the loop's own handler prevents the
error from reaching `__exit__`.  The final storage is therefore always
a commit image of the returned frame's deletion map; the guard's
no-commit path (second conjunct) runs only for a VMError that actually
propagates out of the body, which `execute_vm` never produces.
Abandonment of a failed frame's deletions happens only through
`apply_message`'s snapshot revert. -/
theorem scope_guard_commit_behavior (ext : Ext) (fuel : Nat) (frame : Frame)
    (storage : Storage) (f2 : Frame) (s2 : Storage)
    (h : execute_vm ext fuel frame storage = some (none, f2, s2)) :
    (∃ smid : Storage, s2 = commitDeletions f2.accounts_to_delete smid)
    ∧ (∀ (f : Frame) (s : Storage) (e : VMErr),
        frameExit f s (some (.vm e)) = (none, f.withError e, s)) := by
  refine ⟨?_, fun f s e => rfl⟩
  rw [execute_vm] at h
  cases hr : runLoop ext fuel frame storage with
  | none =>
    rw [hr] at h
    cases h
  | some out =>
    rw [hr] at h
    obtain ⟨exc, f3, s3⟩ := out
    cases exc with
    | none =>
      simp [frameExit] at h
      obtain ⟨h1, h2⟩ := h
      exact ⟨s3, by rw [← h1, ← h2]⟩
    | some err =>
      cases err with
      | vm e =>
        have := runLoop_no_vm ext fuel frame storage _ hr e
        simp at this
      | validation => simp [frameExit] at h
      | valueError => simp [frameExit] at h

/-- Witness for C1 as amended: a clean STOP run commits its (empty)
deletion map. -/
theorem scope_guard_commit_behavior_witness :
    (∃ smid : Storage,
      storStopW = commitDeletions (Frame.accounts_to_delete frameStopW2) smid)
    ∧ (∀ (f : Frame) (s : Storage) (e : VMErr),
        frameExit f s (some (.vm e)) = (none, f.withError e, s)) :=
  scope_guard_commit_behavior extTriv 1 frameStopW storStopW frameStopW2
    storStopW (by rfl)

/-- Counterexample for C1: the claim says that when execution ends with
a captured VMError the scope guard does not move any registered
account's balance and does not delete its storage or code.  In the
concrete run below the opcode logic registers the frame's account for
deletion and then raises `OutOfGas`; `execute_vm` captures the error
into `frame.error`, so `__exit__` sees a clean exit and runs the commit
branch anyway: the beneficiary's balance moves from 3 to 10, the
account's balance is zeroed and its code is deleted, even though the
returned frame's error is `OutOfGas`. -/
theorem scope_guard_commits_on_captured_error_cex :
    (execute_vm extSuicideOOG 1 frameCex storCex).map
        (fun r => (r.1, r.2.1.error, r.2.1.accounts_to_delete,
          r.2.2.get_balance benAddrC, r.2.2.get_balance accAddrC,
          r.2.2.get_code accAddrC))
      = some (none, some .OutOfGas, [(accAddrC, benAddrC)], 10, 0, [])
    ∧ Storage.get_balance storCex benAddrC = 3
    ∧ Storage.get_code storCex accAddrC = [7] :=
  ⟨rfl, rfl, rfl⟩

/-- Two predicates that agree on a list give the same `List.all`
verdict. -/
theorem all_eq_of_pointwise {α : Type} {l : List α} {f g : α → Bool}
    (h : ∀ x ∈ l, f x = g x) : l.all f = l.all g := by
  rw [Bool.eq_iff_iff, List.all_eq_true, List.all_eq_true]
  exact ⟨fun hall x hx => (h x hx).symm.trans (hall x hx),
    fun hall x hx => (h x hx).trans (hall x hx)⟩

/-- The fuel argument of `is_valid_opcode_fuel` is irrelevant as long
as it exceeds the position: the recursion only descends to strictly
smaller positions. -/
theorem is_valid_opcode_fuel_irrel (code : List Nat) :
    ∀ p f g, p < f → p < g →
      is_valid_opcode_fuel code f p = is_valid_opcode_fuel code g p := by
  intro p
  induction p using Nat.strong_induction_on with
  | _ p ih =>
    intro f g hf hg
    cases f with
    | zero => omega
    | succ f =>
      cases g with
      | zero => omega
      | succ g =>
        simp only [is_valid_opcode_fuel]
        apply all_eq_of_pointwise
        intro off hoff
        have hofflt : off < min p 32 := List.mem_range.mp hoff
        rw [ih (p - 1 - off) (by omega) f g (by omega) (by omega)]

/-- One-step unfolding of `is_valid_opcode_fuel` at its natural fuel:
every recursive call again carries its own natural fuel. -/
theorem is_valid_opcode_unfold (code : List Nat) (p : Nat) :
    is_valid_opcode_fuel code (p + 1) p
      = (List.range (min p 32)).all fun off =>
          if code.getD (p - 1 - off) 0 < PUSH1 then true
          else if PUSH32 < code.getD (p - 1 - off) 0 then true
          else if 1 + code.getD (p - 1 - off) 0 - PUSH1 ≤ off then true
          else !(is_valid_opcode_fuel code (p - 1 - off + 1) (p - 1 - off)) := by
  conv_lhs => rw [is_valid_opcode_fuel]
  apply all_eq_of_pointwise
  intro off hoff
  have hofflt : off < min p 32 := List.mem_range.mp hoff
  rw [is_valid_opcode_fuel_irrel code (p - 1 - off) p (p - 1 - off + 1)
    (by omega) (by omega)]

/-- C5: for a position inside the code, `is_valid_opcode(position)`
returns false exactly when the byte lies within the immediate region of
a PUSH1..PUSH32 instruction at some earlier position `p` (necessarily
within the 32 bytes the backward scan covers) that is itself a valid
opcode; position 0, which has no preceding bytes, is always valid. -/
theorem is_valid_opcode_spec (cs : CodeStream) (position : Nat)
    (_hpos : position < cs.code.length) :
    (cs.is_valid_opcode position = false ↔
      ∃ p, p < position ∧ position ≤ p + 32
        ∧ PUSH1 ≤ cs.code.getD p 0 ∧ cs.code.getD p 0 ≤ PUSH32
        ∧ position - p ≤ 1 + cs.code.getD p 0 - PUSH1
        ∧ cs.is_valid_opcode p = true)
    ∧ cs.is_valid_opcode 0 = true := by
  constructor
  · simp only [CodeStream.is_valid_opcode]
    rw [is_valid_opcode_unfold, List.all_eq_false]
    constructor
    · rintro ⟨off, hoff, hbody⟩
      have hofflt : off < min position 32 := List.mem_range.mp hoff
      by_cases h1 : cs.code.getD (position - 1 - off) 0 < PUSH1
      · rw [if_pos h1] at hbody
        simp at hbody
      · rw [if_neg h1] at hbody
        by_cases h2 : PUSH32 < cs.code.getD (position - 1 - off) 0
        · rw [if_pos h2] at hbody
          simp at hbody
        · rw [if_neg h2] at hbody
          by_cases h3 : 1 + cs.code.getD (position - 1 - off) 0 - PUSH1 ≤ off
          · rw [if_pos h3] at hbody
            simp at hbody
          · rw [if_neg h3] at hbody
            have hrec : is_valid_opcode_fuel cs.code (position - 1 - off + 1)
                (position - 1 - off) = true := by
              cases hb : is_valid_opcode_fuel cs.code (position - 1 - off + 1)
                  (position - 1 - off) with
              | false =>
                rw [hb] at hbody
                simp at hbody
              | true => rfl
            exact ⟨position - 1 - off, by omega, by omega, by omega, by omega,
              by omega, hrec⟩
    · rintro ⟨p, hp1, hp2, hb1, hb2, hcov, hvalid⟩
      refine ⟨position - 1 - p, List.mem_range.mpr (by omega), ?_⟩
      have hq : position - 1 - (position - 1 - p) = p := by omega
      rw [hq, if_neg (by omega), if_neg (by omega), if_neg (by omega)]
      rw [show is_valid_opcode_fuel cs.code (p + 1) p = true from hvalid]
      simp
  · rfl

/-- Witness for C5: in the code `PUSH1 0x01 STOP`, byte 1 (the
immediate) is invalid because of the valid PUSH1 at byte 0, while
bytes 0 and 2 are valid. -/
theorem is_valid_opcode_spec_witness :
    1 < (CodeStream.mk [96, 1, 0] 0).code.length
    ∧ CodeStream.is_valid_opcode ⟨[96, 1, 0], 0⟩ 1 = false
    ∧ CodeStream.is_valid_opcode ⟨[96, 1, 0], 0⟩ 0 = true
    ∧ CodeStream.is_valid_opcode ⟨[96, 1, 0], 0⟩ 2 = true :=
  ⟨by decide,
    (is_valid_opcode_spec ⟨[96, 1, 0], 0⟩ 1 (by decide)).1.mpr
      ⟨0, by decide, by decide, by decide, by decide, by decide, by decide⟩,
    (is_valid_opcode_spec ⟨[96, 1, 0], 0⟩ 0 (by decide)).2,
    by decide⟩

end Evm
